import Mathlib

set_option maxRecDepth 8192

/-!
Shallow embedding of the Region apply/flush/fast-add-peer coordination core of
the repository (KVStore.cpp, FastAddPeer.cpp, FastAddPeerContext.cpp), together
with theorems settling the claims about it.  Machine integers (UInt64) are
modelled as `Nat`: all quantities involved are raft log indices, row counts,
byte sizes and configuration thresholds, far below the 64-bit wrap boundary, so
overflow does not matter for any of the compared expressions.  External
collaborators (the column storage engine, S3, the proxy) are modelled as
explicit oracle inputs.  Stateful C++ methods become explicit state-passing
functions; C++ exceptions become an explicit `error?`/`Except` component.
-/

/-- Result enum `EngineStoreApplyRes` of applying a raft command
(None / Persist / NotFound). -/
inductive EngineStoreApplyRes where
  | None
  | Persist
  | NotFound
deriving DecidableEq

/-- Admin raft command kinds (`raft_cmdpb::AdminCmdType`) relevant to the
dispatch in `KVStore::handleAdminRaftCmd`. -/
inductive AdminCmdType where
  | CompactLog
  | VerifyHash
  | ComputeHash
  | PrepareFlashback
  | FinishFlashback
  | BatchSwitchWitness
  | BatchSplit
  | ChangePeer
  | CommitMerge
  | PrepareMerge
  | RollbackMerge
deriving DecidableEq

/-- Column family of a write command (default / write / lock). -/
inductive ColumnFamilyType where
  | Default
  | Write
  | Lock
deriving DecidableEq

/-- Write command type (`WriteCmdType`): Put or Del. -/
inductive WriteCmdType where
  | Put
  | Del
deriving DecidableEq

/-- One decoded write operation of a `WriteCmdsView` batch. -/
structure WriteCmd where
  cmd_type : WriteCmdType
  cf : ColumnFamilyType
  key : Nat
  val : Nat
deriving DecidableEq

/-- Half-open key range `[fst, snd)` with keys modelled as naturals. -/
structure KeyRange where
  fst : Nat
  snd : Nat
deriving DecidableEq

/-- In-memory replicated state of one region, as used by the KVStore paths
under verification: applied index/term, the approximate mem-cache counters
returned by `getApproxMemCacheInfo`, the compact-log bookkeeping read by the
flush paths, the raftstore-version dependent orphan-keys watermark, the key
range, and the buffered write commands. -/
structure Region where
  region_id : Nat
  applied_index : Nat
  applied_term : Nat
  mem_rows : Nat
  mem_bytes : Nat
  last_compact_log_applied : Nat
  last_compact_log_time : Nat
  raftstore_v2 : Bool
  orphan_applied_index : Nat
  range : KeyRange
  buffered : List WriteCmd
  pending_flush_ranges : List KeyRange
deriving DecidableEq

/-- Association-list lookup keyed on the first component. -/
def alookup {α β : Type} [DecidableEq α] : List (α × β) → α → Option β
  | [], _ => none
  | (k, v) :: rest, key => if k = key then some v else alookup rest key

/-- Replace (or add) the binding of `key` in an association list, keeping the
other bindings. -/
def aupsert {α β : Type} [DecidableEq α] (l : List (α × β)) (key : α) (v : β) :
    List (α × β) :=
  (key, v) :: l.filter (fun p => p.1 ≠ key)

/-- Remove the binding of `key` from an association list. -/
def aerase {α β : Type} [DecidableEq α] (l : List (α × β)) (key : α) :
    List (α × β) :=
  l.filter (fun p => p.1 ≠ key)

/-- Modelled from the spec: `Region::handleWriteRaftCmd` (Region.cpp is not
part of the sample; §4.2 of the spec describes its contract).  At-least-once
delivery of an already-applied index is a no-op, detected by comparing against
`applied_index` before mutation; otherwise the buffered column-family data is
extended and `applied_index`/`applied_term` advance. -/
def Region.handleWriteRaftCmdModel (r : Region) (cmds : List WriteCmd)
    (index term : Nat) : Region :=
  if index ≤ r.applied_index then r
  else
    { r with
      applied_index := index
      applied_term := term
      buffered := r.buffered ++ cmds
      mem_rows := r.mem_rows + cmds.length
      mem_bytes := r.mem_bytes + 2 * cmds.length }

/-- Modelled from the spec: `Region::markCompactLog` records the current
applied index and time as the last compact-log checkpoint (Region.cpp is not
part of the sample; the flush paths in KVStore.cpp read these fields back). -/
def Region.markCompactLog (r : Region) (now : Nat) : Region :=
  { r with
    last_compact_log_applied := r.applied_index
    last_compact_log_time := now }

/-- Modelled from the spec: `Region::cleanApproxMemCacheInfo` resets the
approximate row/byte counters after a successful flush. -/
def Region.cleanApproxMemCacheInfo (r : Region) : Region :=
  { r with mem_rows := 0, mem_bytes := 0 }

/-- Compact-log flush thresholds of the KVStore
(`region_compact_log_period/min_rows/min_bytes/gap`). -/
structure KVConfig where
  period : Nat
  min_rows : Nat
  min_bytes : Nat
  gap : Nat
deriving DecidableEq

/-- The region map of the KVStore (`RegionManager.regions`), an association
list from region id to region. -/
structure KVState where
  regions : List (Nat × Region)
deriving DecidableEq

/-- `KVStore::getRegion`: look a region up in the region map. -/
def KVState.getRegion (st : KVState) (region_id : Nat) : Option Region :=
  alookup st.regions region_id

/-- Replace the stored region object for `region_id`. -/
def KVState.updateRegion (st : KVState) (region_id : Nat) (r : Region) :
    KVState :=
  { st with regions := aupsert st.regions region_id r }

/-- Error kinds thrown (as C++ exceptions) by the embedded paths. -/
inductive ErrKind where
  | regionNotFoundWhenFlush
  | forceFlushFailed (region_id : Nat)
  | overlappedRegions (ids : List Nat)
  | cantGetStorage
  | emptySegments
  | otherErr (code : Nat)
deriving DecidableEq

/-- Outcome of `KVStore::forceFlushRegionDataImpl`: whether the flush
succeeded, and the updated region. -/
structure ForceFlushOutcome where
  value : Bool
  region : Region
  persisted : Bool
deriving DecidableEq

/-- `KVStore::forceFlushRegionDataImpl`: when `index` is non-zero first
advance the applied index via an empty write, then attempt the storage-cache
flush (its success is the oracle input `flush_ok`, the result of
`tryFlushRegionCacheInStorage`); on success persist the region, mark the
compact-log checkpoint and clean the mem-cache counters. -/
def forceFlushRegionDataImpl (r : Region) (flush_ok : Bool)
    (index term now : Nat) : ForceFlushOutcome :=
  let r1 := if index ≠ 0 then r.handleWriteRaftCmdModel [] index term else r
  if flush_ok then
    { value := true
      region := (r1.markCompactLog now).cleanApproxMemCacheInfo
      persisted := true }
  else
    { value := false, region := r1, persisted := false }

/-- Outcome of `KVStore::canFlushRegionDataImpl`: either a thrown logical
error, or a boolean result with the (possibly flushed) region. -/
structure CanFlushOutcome where
  err? : Option ErrKind
  value : Bool
  region? : Option Region
  persisted : Bool
deriving DecidableEq

/-- `KVStore::canFlushRegionDataImpl`: throws a logical error on a null
region; otherwise computes `can_flush` from the approximate mem-cache rows and
bytes against the row/byte thresholds and from
`index > truncated_index + gap_threshold`; when `can_flush` and
`flush_if_possible` are both set it delegates to `forceFlushRegionDataImpl`,
otherwise it reports `can_flush`. -/
def canFlushRegionDataImpl (r? : Option Region) (flush_if_possible : Bool)
    (cfg : KVConfig) (index term truncated_index truncated_term : Nat)
    (flush_ok : Bool) (now : Nat) : CanFlushOutcome :=
  match r? with
  | none =>
    { err? := some ErrKind.regionNotFoundWhenFlush
      value := false
      region? := none
      persisted := false }
  | some r =>
    let rows := r.mem_rows
    let size_bytes := r.mem_bytes
    let can_flush :=
      decide (rows ≥ cfg.min_rows) || decide (size_bytes ≥ cfg.min_bytes)
        || decide (index > truncated_index + cfg.gap)
    let _ := truncated_term
    if can_flush && flush_if_possible then
      let o := forceFlushRegionDataImpl r flush_ok index term now
      { err? := none, value := o.value, region? := some o.region
        persisted := o.persisted }
    else
      { err? := none, value := can_flush, region? := some r, persisted := false }

/-- Outcome of `KVStore::tryFlushRegionData`: a thrown error or a boolean with
the updated store state. -/
structure TryFlushOutcome where
  err? : Option ErrKind
  value : Bool
  state : KVState
deriving DecidableEq

/-- `KVStore::tryFlushRegionData`: a missing region returns `true` so that the
proxy can still trigger a CompactLog (which will then be answered with
NotFound by `handleUselessAdminRaftCmd`); a forced persist that fails throws;
otherwise it delegates to `canFlushRegionDataImpl` with
`flush_if_possible = true`. -/
def tryFlushRegionData (st : KVState) (cfg : KVConfig) (region_id : Nat)
    (force_persist : Bool) (index term truncated_index truncated_term : Nat)
    (flush_ok : Bool) (now : Nat) : TryFlushOutcome :=
  match st.getRegion region_id with
  | none => { err? := none, value := true, state := st }
  | some r =>
    if force_persist then
      let o := forceFlushRegionDataImpl r flush_ok index term now
      if o.value then
        { err? := none, value := true
          state := st.updateRegion region_id o.region }
      else
        { err? := some (ErrKind.forceFlushFailed region_id), value := false
          state := st.updateRegion region_id o.region }
    else
      let o := canFlushRegionDataImpl (some r) true cfg index term
        truncated_index truncated_term flush_ok now
      { err? := o.err?
        value := o.value
        state :=
          match o.region? with
          | some r' => st.updateRegion region_id r'
          | none => st }

/-- `KVStore::needFlushRegionData`: report-only query, delegating to
`canFlushRegionDataImpl` with `flush_if_possible = false` and zero
index/term/truncated state. -/
def needFlushRegionData (st : KVState) (cfg : KVConfig) (region_id : Nat)
    (flush_ok : Bool) (now : Nat) : CanFlushOutcome :=
  canFlushRegionDataImpl (st.getRegion region_id) false cfg 0 0 0 0 flush_ok now

/-- Outcome of the admin command handlers: the apply result, the updated
store state, whether `tryFlushRegionCacheInStorage` was invoked, and the ids
of the regions persisted. -/
structure AdminCmdOutcome where
  res : EngineStoreApplyRes
  state : KVState
  flushed_storage : Bool
  persisted : List Nat
deriving DecidableEq

/-- `KVStore::handleUselessAdminRaftCmd`: missing region yields NotFound; a
raftstore-V2 region first advances its orphan-keys watermark; CompactLog
returns `Persist` immediately (the applied-index advance was already executed
by the preceding `fn_try_flush_data` FFI call, so neither the applied index
nor the storage cache is touched here); the other ignorable commands advance
the applied index via an empty write, and the flashback / witness-switch
commands additionally flush the storage cache and persist the region. -/
def handleUselessAdminRaftCmd (st : KVState) (cmd_type : AdminCmdType)
    (curr_region_id index term : Nat) : AdminCmdOutcome :=
  match st.getRegion curr_region_id with
  | none =>
    { res := EngineStoreApplyRes.NotFound, state := st
      flushed_storage := false, persisted := [] }
  | some r =>
    let r1 :=
      if r.raftstore_v2 then
        { r with orphan_applied_index := max r.orphan_applied_index index }
      else r
    if cmd_type = AdminCmdType.CompactLog then
      { res := EngineStoreApplyRes.Persist
        state := st.updateRegion curr_region_id r1
        flushed_storage := false
        persisted := [] }
    else
      let r2 := r1.handleWriteRaftCmdModel [] index term
      if cmd_type = AdminCmdType.PrepareFlashback
          ∨ cmd_type = AdminCmdType.FinishFlashback
          ∨ cmd_type = AdminCmdType.BatchSwitchWitness then
        { res := EngineStoreApplyRes.Persist
          state := st.updateRegion curr_region_id r2
          flushed_storage := true
          persisted := [curr_region_id] }
      else
        { res := EngineStoreApplyRes.None
          state := st.updateRegion curr_region_id r2
          flushed_storage := false
          persisted := [] }

/-- The dispatch switch at the top of `KVStore::handleAdminRaftCmd`: these
command types do not change region meta and are routed to
`handleUselessAdminRaftCmd` without taking the whole-store task lock. -/
def routesToUselessAdminCmd (cmd_type : AdminCmdType) : Bool :=
  match cmd_type with
  | AdminCmdType.CompactLog => true
  | AdminCmdType.VerifyHash => true
  | AdminCmdType.ComputeHash => true
  | AdminCmdType.PrepareFlashback => true
  | AdminCmdType.FinishFlashback => true
  | AdminCmdType.BatchSwitchWitness => true
  | _ => false

/-- `KVStore::handleAdminRaftCmd`, restricted to the ignorable-admin dispatch:
for a command type routed by the switch the handler is exactly
`handleUselessAdminRaftCmd`; the structural branch (split / merge / change
peer) is outside the claims under verification and is left unmodelled
(`none`). -/
def handleAdminRaftCmdOnUseless (st : KVState) (cmd_type : AdminCmdType)
    (curr_region_id index term : Nat) : Option AdminCmdOutcome :=
  if routesToUselessAdminCmd cmd_type then
    some (handleUselessAdminRaftCmd st cmd_type curr_region_id index term)
  else none

/-- Result of `RegionsRangeIndex::findByRangeChecked`: the overlapping region
set, or a conflict naming the partially-overlapping regions. -/
inductive RangeCheckedResult where
  | found (regions : List (Nat × Region))
  | conflict (ids : List Nat)
deriving DecidableEq

/-- Whether two half-open key ranges overlap. -/
def rangesOverlap (a b : KeyRange) : Bool :=
  decide (a.fst < b.snd) && decide (b.fst < a.snd)

/-- Whether range `a` is contained in range `b`. -/
def rangeContained (a b : KeyRange) : Bool :=
  decide (b.fst ≤ a.fst) && decide (a.snd ≤ b.snd)

/-- Modelled from the spec: `RegionsRangeIndex::findByRangeChecked`
(RegionsRangeIndex.cpp is not part of the sample; §4.1 of the spec describes
its contract).  It returns the region set overlapping `range` when every such
region's range is contained in `range`, and otherwise a conflict value naming
the regions that only partially overlap the range. -/
def findByRangeChecked (regions : List (Nat × Region)) (range : KeyRange) :
    RangeCheckedResult :=
  let overlapped := regions.filter (fun p => rangesOverlap p.2.range range)
  let partial_ids :=
    (overlapped.filter (fun p => ¬ rangeContained p.2.range range)).map
      (fun p => p.1)
  if partial_ids = [] then RangeCheckedResult.found overlapped
  else RangeCheckedResult.conflict partial_ids

/-- Outcome of `KVStore::proactiveFlushCacheAndRegion`: a thrown error (if
any), the updated store state, the ids of the regions persisted, the storage
ranges flushed, and the regions whose compaction was notified to the proxy. -/
structure ProactiveFlushOutcome where
  err? : Option ErrKind
  state : KVState
  persisted : List Nat
  flushed_ranges : List KeyRange
  notified : List Nat
deriving DecidableEq

/-- One step of the per-region loop of `proactiveFlushCacheAndRegion`: decide
the skip reason from the compact-log period and the applied-index lag, then
flush/persist/mark the region when not skipped.  Returns the updated region
together with `skip_flush`, the persisted ids and the flushed ranges. -/
def proactiveFlushOneRegion (cfg : KVConfig) (rowkey_range : KeyRange)
    (region_id : Nat) (r : Region) (applied_index : Nat) (now : Nat) :
    Region × Bool × List Nat × List KeyRange :=
  let last_flushed_applied := r.last_compact_log_applied
  if r.last_compact_log_time + cfg.period > now then
    (r, true, [], [])
  else if r.last_compact_log_applied + 15 < applied_index then
    (r, true, [], [])
  else
    let flush_region_range :=
      if rangeContained r.range rowkey_range
          ∧ last_flushed_applied ≥ applied_index then
        ([] : List KeyRange)
      else [r.range]
    let r' := (r.markCompactLog now).cleanApproxMemCacheInfo
    (r', false, [region_id], flush_region_range ++ [rowkey_range])

/-- The accumulator-passing form of the per-region loop of
`proactiveFlushCacheAndRegion`: thread the store state and the accumulated
persisted ids, flushed ranges and notified ids through
`proactiveFlushOneRegion`. -/
def proactiveFlushStep (cfg : KVConfig) (rowkey_range : KeyRange) (now : Nat)
    (acc : KVState × List Nat × List KeyRange × List Nat)
    (p : Nat × Region) : KVState × List Nat × List KeyRange × List Nat :=
  let o := proactiveFlushOneRegion cfg rowkey_range p.1 p.2
    p.2.applied_index now
  let st' := acc.1.updateRegion p.1 o.1
  let ntf' := if o.2.1 then acc.2.2.2 else acc.2.2.2 ++ [p.1]
  (st', acc.2.1 ++ o.2.2.1, acc.2.2.1 ++ o.2.2.2, ntf')

/-- `KVStore::proactiveFlushCacheAndRegion`: a missing storage returns without
persisting; an overlap conflict from `findByRangeChecked` throws a logical
error naming the offending regions before any region is persisted; otherwise
every region found overlapping the range is either skipped (compact-log
period not elapsed, or applied-index lag above 15) or storage-flushed,
persisted and marked; finally the proxy is notified for every non-skipped
region. -/
def proactiveFlushCacheAndRegion (st : KVState) (cfg : KVConfig)
    (rowkey_range : KeyRange) (storage_exists : Bool) (now : Nat) :
    ProactiveFlushOutcome :=
  if ¬ storage_exists then
    { err? := none, state := st, persisted := [], flushed_ranges := []
      notified := [] }
  else
    match findByRangeChecked st.regions rowkey_range with
    | RangeCheckedResult.conflict ids =>
      { err? := some (ErrKind.overlappedRegions ids), state := st
        persisted := [], flushed_ranges := [], notified := [] }
    | RangeCheckedResult.found region_map =>
      let final := region_map.foldl (proactiveFlushStep cfg rowkey_range now)
        (st, [], [], [])
      { err? := none
        state := final.1
        persisted := final.2.1
        flushed_ranges := final.2.2.1
        notified := final.2.2.2 }

/-- Outcome of `KVStore::handleWriteRaftCmdInner`: the apply result, the
updated store state, and the ids of the regions persisted by the proactive
flushes it triggered. -/
structure WriteCmdInnerOutcome where
  err? : Option ErrKind
  res : EngineStoreApplyRes
  state : KVState
  proactive_persisted : List Nat
deriving DecidableEq

/-- `KVStore::handleWriteRaftCmdInner`: a missing region returns `NotFound`
at once, with no mutation, no exception and no proactive flush; otherwise the
region applies the write batch, and for every pending-flush range of the
write result `proactiveFlushCacheAndRegion` is invoked synchronously. -/
def handleWriteRaftCmdInner (st : KVState) (cfg : KVConfig)
    (cmds : List WriteCmd) (region_id index term : Nat)
    (storage_exists : Bool) (now : Nat) : WriteCmdInnerOutcome :=
  match st.getRegion region_id with
  | none =>
    { err? := none, res := EngineStoreApplyRes.NotFound, state := st
      proactive_persisted := [] }
  | some r =>
    let r' := r.handleWriteRaftCmdModel cmds index term
    let write_result :=
      if r.applied_index < index then r.pending_flush_ranges else []
    let st1 := st.updateRegion region_id r'
    let step :=
      fun (acc : Option ErrKind × KVState × List Nat) (range : KeyRange) =>
        match acc.1 with
        | some e => (some e, acc.2)
        | none =>
          let o := proactiveFlushCacheAndRegion acc.2.1 cfg range
            storage_exists now
          (o.err?, o.state, acc.2.2 ++ o.persisted)
    let final := write_result.foldl step (none, st1, [])
    { err? := final.1
      res := EngineStoreApplyRes.None
      state := final.2.1
      proactive_persisted := final.2.2 }

/-- Status enum `FastAddPeerStatus` returned over the FFI boundary. -/
inductive FastAddPeerStatus where
  | Ok
  | WaitForData
  | NoSuitable
  | Canceled
  | BadData
  | OtherError
deriving DecidableEq

/-- `CheckpointIngestInfo`: the record of an in-progress Fast-Add-Peer
ingestion for a `(region_id, peer_id)` pair — remote store id, the region
object reconstructed from the checkpoint, the storage segments built from it,
and the start timestamp. -/
structure CheckpointIngestInfoM where
  region_id : Nat
  peer_id : Nat
  remote_store_id : Nat
  region : Region
  segments : List Nat
  start_time : Nat
deriving DecidableEq

/-- The Fast-Add-Peer side of the store state: the in-memory
`checkpoint_ingest_info_map` keyed by region id, the durable ingest records
keyed by `(region_id, peer_id)` (spec §6: persisted state layout), and the
raft-log pages copied into this node's own log store. -/
structure FAPStateM where
  ingest_map : List (Nat × CheckpointIngestInfoM)
  durable_ingest : List ((Nat × Nat) × CheckpointIngestInfoM)
  raft_log : List (Nat × Nat)
deriving DecidableEq

/-- The data selected by Fast-Add-Peer phase 1
(`CheckpointRegionInfoAndData`): the source store, the region object parsed
from the checkpoint, the apply state and region-local-state payloads, the
segment payload the storage engine would build from the checkpoint, and the
raft-log entries the checkpoint references. -/
structure CheckpointSelectedM where
  remote_store_id : Nat
  region : Region
  apply_state : Nat
  region_state : Nat
  segment_payload : List Nat
  raft_logs : List Nat
deriving DecidableEq

/-- `FastAddPeerContext::insertCheckpointIngestInfo`: build the
`CheckpointIngestInfo` and store it under `region_id` in the in-memory map
(replacing any previous record, which the source logs as a repeated-ingest
anomaly); the durable copy (spec §3: the record must be recoverable after a
restart, written by the `CheckpointIngestInfo` constructor whose
implementation is not part of the sample) is modelled alongside. -/
def insertCheckpointIngestInfo (st : FAPStateM) (region_id peer_id
    remote_store_id : Nat) (region : Region) (segments : List Nat)
    (start_time : Nat) : FAPStateM :=
  let info : CheckpointIngestInfoM :=
    { region_id := region_id, peer_id := peer_id
      remote_store_id := remote_store_id, region := region
      segments := segments, start_time := start_time }
  { st with
    ingest_map := aupsert st.ingest_map region_id info
    durable_ingest := aupsert st.durable_ingest (region_id, peer_id) info }

/-- Modelled from the spec: `FastAddPeerContext::cleanTask` /
`CheckpointIngestInfo` removal (the implementation is not part of the sample;
spec §4.3: "if cancelled at any checkpoint, clean up any constructed segments
before returning Canceled", and phase 3 deletes the record from memory and
durable storage).  Removes every ingest record of `region_id` from the
in-memory map and from durable storage. -/
def cleanTask (st : FAPStateM) (region_id : Nat) : FAPStateM :=
  { st with
    ingest_map := aerase st.ingest_map region_id
    durable_ingest := st.durable_ingest.filter (fun p => p.1.1 ≠ region_id) }

/-- `FastAddPeerContext::getOrRestoreCheckpointIngestInfo`: the in-memory map
is consulted first, keyed by `region_id` alone; only on a miss is a record
restored from durable storage, identified by `(region_id, peer_id)` (the
restoring `CheckpointIngestInfo` constructor is not part of the sample and is
modelled from spec §3/§6 as the durable lookup). -/
def getOrRestoreCheckpointIngestInfo (st : FAPStateM)
    (region_id peer_id : Nat) : Option CheckpointIngestInfoM × FAPStateM :=
  match alookup st.ingest_map region_id with
  | some info => (some info, st)
  | none =>
    match alookup st.durable_ingest (region_id, peer_id) with
    | some info =>
      (some info, { st with ingest_map := aupsert st.ingest_map region_id info })
    | none => (none, st)

/-- Modelled from the spec: `DeltaMergeStore::buildSegmentsFromCheckpointInfo`
(the storage-engine implementation is not part of the sample; spec §4.3 and
the `EmptySegment` test make a checkpoint whose built segment set is empty an
error condition raised as an exception). -/
def buildSegmentsFromCheckpointInfoModel (ck : CheckpointSelectedM) :
    Except ErrKind (List Nat) :=
  if ck.segment_payload = [] then Except.error ErrKind.emptySegments
  else Except.ok ck.segment_payload

/-- The cancel-flag values observed by `FastAddPeerImplWrite` at its three
cooperative checkpoints: before segment construction, after segment
construction, and after the raft-log copy. -/
structure WriteCancelObs where
  before_build : Bool
  after_build : Bool
  after_raft_log : Bool
deriving DecidableEq

/-- `FastAddPeerImplWrite` (Fast-Add-Peer phase 2): a missing storage engine
throws; the cancel handle is consulted before segment construction, after
segment construction, and after the raft-log copy, and an observed
cancellation cleans the task's data and returns `Canceled`; otherwise the
segments are built from the checkpoint, recorded as a `CheckpointIngestInfo`,
the referenced raft-log pages are copied into this node's log store, and the
phase returns `Ok` with the serialized apply/region state. -/
def FastAddPeerImplWrite (st : FAPStateM) (region_id new_peer_id : Nat)
    (ck : CheckpointSelectedM) (start_time : Nat) (storage_exists : Bool)
    (obs : WriteCancelObs) : Except ErrKind (FastAddPeerStatus × FAPStateM) :=
  if ¬ storage_exists then Except.error ErrKind.cantGetStorage
  else if obs.before_build then
    Except.ok (FastAddPeerStatus.Canceled, cleanTask st region_id)
  else
    match buildSegmentsFromCheckpointInfoModel ck with
    | Except.error e => Except.error e
    | Except.ok segments =>
      let st1 := insertCheckpointIngestInfo st region_id new_peer_id
        ck.remote_store_id ck.region segments start_time
      if obs.after_build then
        Except.ok (FastAddPeerStatus.Canceled, cleanTask st1 region_id)
      else
        let st2 :=
          { st1 with
            raft_log := st1.raft_log ++ ck.raft_logs.map
              (fun idx => (region_id, idx)) }
        if obs.after_raft_log then
          Except.ok (FastAddPeerStatus.Canceled, cleanTask st2 region_id)
        else Except.ok (FastAddPeerStatus.Ok, st2)

/-- The outcome of Fast-Add-Peer phase 1 (`FastAddPeerImplSelect`), taken as
an input of the phase-2 wrapper: either selected checkpoint data, or a
terminal status (NoSuitable on timeout or missing candidates, Canceled when
the cancel handle fired during selection). -/
inductive SelectOutcome where
  | selected (ck : CheckpointSelectedM)
  | terminal (status : FastAddPeerStatus)
deriving DecidableEq

/-- `FastAddPeerImpl`: the body of the background Fast-Add-Peer task.  A task
already cancelled in the queue returns `Canceled`; otherwise the select-phase
outcome either is terminal or feeds phase 2.  Any exception is caught at this
level and converted into the `BadData` status (the store state reverts to the
pre-task state, since every modelled throw happens before a mutation). -/
def FastAddPeerImpl (st : FAPStateM) (region_id new_peer_id start_time : Nat)
    (queue_cancel : Bool) (select : SelectOutcome) (storage_exists : Bool)
    (obs : WriteCancelObs) : FastAddPeerStatus × FAPStateM :=
  if queue_cancel then (FastAddPeerStatus.Canceled, st)
  else
    match select with
    | SelectOutcome.terminal s => (s, st)
    | SelectOutcome.selected ck =>
      match FastAddPeerImplWrite st region_id new_peer_id ck start_time
          storage_exists obs with
      | Except.ok r => r
      | Except.error _ => (FastAddPeerStatus.BadData, st)

/-- The catch-all at the bottom of the polling entry point `FastAddPeer`:
any exception escaping the polling body is converted into `OtherError`. -/
def fapCatchToOtherError (x : Except ErrKind FastAddPeerStatus) :
    FastAddPeerStatus :=
  match x with
  | Except.ok s => s
  | Except.error _ => FastAddPeerStatus.OtherError

/-- Oracle inputs of one call of the polling entry point `FastAddPeer`: the
mode and context checks, the `AsyncTasks` registry observations
(schedule/ready/fetch), the elapsed queueing time against the configured
timeout, and an exception possibly raised inside the polling path itself. -/
structure PollArgs where
  disagg_mode : Bool
  has_fap_ctx : Bool
  is_scheduled : Bool
  add_task_ok : Bool
  is_ready : Bool
  fetched : FastAddPeerStatus
  elapsed_ms : Nat
  timeout_s : Nat
  poll_exn : Option ErrKind
deriving DecidableEq

/-- The body of `FastAddPeer` before its catch-all: non-disaggregated mode
returns `OtherError`; a missing FAP context returns `NoSuitable`; an
unscheduled task that cannot be added (queue full, or polling a cancelled
task) returns `OtherError`; a ready task's result is fetched and returned; a
task past the configured timeout is cancelled and `Canceled` returned;
otherwise `WaitForData`. -/
def fastAddPeerPollBody (a : PollArgs) : Except ErrKind FastAddPeerStatus :=
  match a.poll_exn with
  | some e => Except.error e
  | none =>
    if ¬ a.disagg_mode then Except.ok FastAddPeerStatus.OtherError
    else if ¬ a.has_fap_ctx then Except.ok FastAddPeerStatus.NoSuitable
    else if ¬ a.is_scheduled ∧ ¬ a.add_task_ok then
      Except.ok FastAddPeerStatus.OtherError
    else if a.is_ready then Except.ok a.fetched
    else if a.elapsed_ms ≥ 1000 * a.timeout_s then
      Except.ok FastAddPeerStatus.Canceled
    else Except.ok FastAddPeerStatus.WaitForData

/-- The polling entry point `FastAddPeer`: its body wrapped in the catch-all
that turns any internal exception into `OtherError`. -/
def FastAddPeerPoll (a : PollArgs) : FastAddPeerStatus :=
  fapCatchToOtherError (fastAddPeerPollBody a)

/-- A parsed checkpoint data holder (`ParsedCheckpointDataHolder`), identified
by the manifest it was built from. -/
structure ParsedDataM where
  manifest_key : Nat
deriving DecidableEq

/-- One entry of the checkpoint cache (`CheckpointCacheElement`): the manifest
key it will parse and its temporary page-store directory sequence. -/
structure CacheElementM where
  manifest_key : Nat
  dir_seq : Nat
deriving DecidableEq

/-- The checkpoint catalog state of `FastAddPeerContext`: the
`checkpoint_cache_map` from store id to (upload sequence, cache element), and
the `temp_ps_dir_sequence` counter. -/
structure CatalogStateM where
  cache_map : List (Nat × (Nat × CacheElementM))
  temp_ps_dir_sequence : Nat
deriving DecidableEq

/-- `CheckpointCacheElement::getParsedCheckpointData`: parse (or reuse) the
checkpoint data of the element's manifest; `buildParsedCheckpointData` is an
external collaborator, modelled as the pure construction of the holder from
the manifest key. -/
def getParsedCheckpointData (e : CacheElementM) : ParsedDataM :=
  { manifest_key := e.manifest_key }

/-- Upload sequences of the checkpoint manifests store `store_id` currently
has on S3; the latest manifest is the one with the greatest sequence
(manifest keys are modelled by their upload sequence). -/
def latestUploadSeq (manifests : List Nat) : Nat :=
  manifests.foldl max 0

/-- The S3 branch of `getNewerCheckpointData`, reached when the cache holds
nothing newer than `required_seq`: list the manifests, stop when none is
strictly newer than `required_seq`, then re-check the cache (another thread
may have downloaded a current-or-newer manifest) and otherwise evict the
superseded entry and cache the latest manifest. -/
def getNewerCheckpointDataFetch (st : CatalogStateM) (manifests : List Nat)
    (store_id required_seq : Nat) :
    (Nat × Option ParsedDataM) × CatalogStateM :=
  if manifests = [] then ((required_seq, none), st)
  else
    let latest_upload_seq := latestUploadSeq manifests
    if latest_upload_seq ≤ required_seq then ((required_seq, none), st)
    else
      match alookup st.cache_map store_id with
      | some (seq, elem) =>
        if latest_upload_seq ≤ seq then
          ((seq, some (getParsedCheckpointData elem)), st)
        else
          let elem' : CacheElementM :=
            { manifest_key := latest_upload_seq
              dir_seq := st.temp_ps_dir_sequence }
          (((latest_upload_seq, some (getParsedCheckpointData elem')),
            { cache_map := aupsert st.cache_map store_id
                (latest_upload_seq, elem')
              temp_ps_dir_sequence := st.temp_ps_dir_sequence + 1 }))
      | none =>
        let elem' : CacheElementM :=
          { manifest_key := latest_upload_seq
            dir_seq := st.temp_ps_dir_sequence }
        (((latest_upload_seq, some (getParsedCheckpointData elem')),
          { cache_map := aupsert st.cache_map store_id
              (latest_upload_seq, elem')
            temp_ps_dir_sequence := st.temp_ps_dir_sequence + 1 }))

/-- `FastAddPeerContext::getNewerCheckpointData`: return the newest checkpoint
data of `store_id` strictly newer than `required_seq`, consulting the cache
first, then the store's manifest set on S3 (`manifests` lists its upload
sequences); `(required_seq, none)` when nothing strictly newer exists; a
cached entry is replaced only by a strictly newer upload sequence. -/
def getNewerCheckpointData (st : CatalogStateM) (manifests : List Nat)
    (store_id required_seq : Nat) :
    (Nat × Option ParsedDataM) × CatalogStateM :=
  match alookup st.cache_map store_id with
  | some (seq, elem) =>
    if required_seq < seq then
      ((seq, some (getParsedCheckpointData elem)), st)
    else
      getNewerCheckpointDataFetch st manifests store_id required_seq
  | none => getNewerCheckpointDataFetch st manifests store_id required_seq

/-- A sample region for concrete instantiations: id, applied index and key
range are given, every other field is at its post-restore default. -/
def mkRegion (id applied rstart rend : Nat) : Region :=
  { region_id := id
    applied_index := applied
    applied_term := 3
    mem_rows := 0
    mem_bytes := 0
    last_compact_log_applied := 0
    last_compact_log_time := 0
    raftstore_v2 := false
    orphan_applied_index := 0
    range := { fst := rstart, snd := rend }
    buffered := []
    pending_flush_ranges := [] }

/-- A sample ingest record for concrete instantiations. -/
def mkIngestInfo (rid pid : Nat) : CheckpointIngestInfoM :=
  { region_id := rid
    peer_id := pid
    remote_store_id := 3
    region := mkRegion rid 5 0 100
    segments := [11]
    start_time := 0 }

/-- A sample selected checkpoint for concrete instantiations, with the given
segment payload. -/
def mkSelected (segs : List Nat) : CheckpointSelectedM :=
  { remote_store_id := 3
    region := mkRegion 1 5 0 100
    apply_state := 21
    region_state := 22
    segment_payload := segs
    raft_logs := [6, 7] }

/-- A selected checkpoint assembled from all of its components. -/
def mkSelectedFull (rsid : Nat) (reg : Region) (aps rgs : Nat)
    (segs logs : List Nat) : CheckpointSelectedM :=
  { remote_store_id := rsid
    region := reg
    apply_state := aps
    region_state := rgs
    segment_payload := segs
    raft_logs := logs }

theorem alookup_aupsert_self {α β : Type} [DecidableEq α]
    (l : List (α × β)) (k : α) (v : β) :
    alookup (aupsert l k v) k = some v := by
  simp [aupsert, alookup]

theorem alookup_filter_fst_ne {α β : Type} [DecidableEq α]
    (l : List (α × β)) (k : α) :
    alookup (l.filter (fun p => p.1 ≠ k)) k = none := by
  induction l with
  | nil => rfl
  | cons hd tl ih =>
    by_cases h : hd.1 = k
    · simpa [List.filter_cons, h] using ih
    · simpa [List.filter_cons, h, alookup] using ih

theorem alookup_filter_key_other {α β : Type} [DecidableEq α]
    (l : List (α × β)) (k k' : α) (h : k' ≠ k) :
    alookup (l.filter (fun p => p.1 ≠ k)) k' = alookup l k' := by
  induction l with
  | nil => rfl
  | cons hd tl ih =>
    obtain ⟨a, b⟩ := hd
    rcases eq_or_ne a k with hh | hh
    · subst hh
      rw [List.filter_cons, if_neg (by simp), ih]
      simp [alookup, Ne.symm h]
    · rw [List.filter_cons, if_pos (by simp [hh])]
      simp only [alookup]
      by_cases hak : a = k'
      · simp [hak]
      · simp only [if_neg hak]
        simpa using ih

theorem alookup_aupsert_ne {α β : Type} [DecidableEq α]
    (l : List (α × β)) (k k' : α) (v : β) (h : k' ≠ k) :
    alookup (aupsert l k v) k' = alookup l k' := by
  simp only [aupsert, alookup]
  rw [if_neg (Ne.symm h)]
  exact alookup_filter_key_other l k k' h

theorem alookup_aerase_self {α β : Type} [DecidableEq α]
    (l : List (α × β)) (k : α) : alookup (aerase l k) k = none :=
  alookup_filter_fst_ne l k

theorem alookup_filter_pair_fst {β : Type} (l : List ((Nat × Nat) × β))
    (rid p : Nat) :
    alookup (l.filter (fun q => q.1.1 ≠ rid)) (rid, p) = none := by
  induction l with
  | nil => rfl
  | cons hd tl ih =>
    obtain ⟨a, b⟩ := hd
    rcases eq_or_ne a.1 rid with hh | hh
    · rw [List.filter_cons, if_neg (by simp [hh])]
      exact ih
    · rw [List.filter_cons, if_pos (by simp [hh])]
      have hne : ¬ a = (rid, p) := by
        intro hc
        exact hh (by rw [hc])
      simp only [alookup, if_neg hne]
      exact ih

/-- C2: `canFlushRegionDataImpl` reports a region flush-eligible if and only
if the buffered row count reaches the configured row threshold, or the
buffered byte size reaches the configured byte threshold, or the applied
index minus the truncated index exceeds the configured gap threshold. -/
theorem canFlushRegionDataImpl_eligibility_iff (r : Region) (cfg : KVConfig)
    (index term truncated_index truncated_term : Nat) (flush_ok : Bool)
    (now : Nat) :
    (canFlushRegionDataImpl (some r) false cfg index term truncated_index
        truncated_term flush_ok now).value = true ↔
      (r.mem_rows ≥ cfg.min_rows ∨ r.mem_bytes ≥ cfg.min_bytes ∨
        index - truncated_index > cfg.gap) := by
  simp only [canFlushRegionDataImpl, Bool.and_false, Bool.false_eq_true,
    if_false, Bool.or_eq_true, decide_eq_true_eq]
  omega

/-- C10: `tryFlushRegionData` on a region id absent from the region map
reports success (`true`) with no exception and no state change, so the proxy
may proceed to CompactLog; by contrast `canFlushRegionDataImpl` (and hence
`needFlushRegionData`) on a null region throws the region-not-found logical
error. -/
theorem tryFlushRegionData_missingRegion (st : KVState) (cfg : KVConfig)
    (region_id : Nat) (force_persist : Bool)
    (index term truncated_index truncated_term : Nat) (flush_ok : Bool)
    (now : Nat) (h : st.getRegion region_id = none) :
    tryFlushRegionData st cfg region_id force_persist index term
        truncated_index truncated_term flush_ok now
      = { err? := none, value := true, state := st } ∧
    (canFlushRegionDataImpl none force_persist cfg index term truncated_index
        truncated_term flush_ok now).err?
      = some ErrKind.regionNotFoundWhenFlush ∧
    (needFlushRegionData st cfg region_id flush_ok now).err?
      = some ErrKind.regionNotFoundWhenFlush := by
  refine ⟨?_, rfl, ?_⟩
  · simp [tryFlushRegionData, h]
  · simp [needFlushRegionData, h, canFlushRegionDataImpl]

/-- C10 witness: the empty store at region id 1. -/
theorem tryFlushRegionData_missingRegion_w :
    tryFlushRegionData { regions := [] }
        { period := 120, min_rows := 40960, min_bytes := 33554432, gap := 500 }
        1 false 5 2 0 0 true 0
      = { err? := none, value := true, state := { regions := [] } } ∧
    (canFlushRegionDataImpl none false
        { period := 120, min_rows := 40960, min_bytes := 33554432, gap := 500 }
        5 2 0 0 true 0).err? = some ErrKind.regionNotFoundWhenFlush ∧
    (needFlushRegionData { regions := [] }
        { period := 120, min_rows := 40960, min_bytes := 33554432, gap := 500 }
        1 true 0).err? = some ErrKind.regionNotFoundWhenFlush :=
  tryFlushRegionData_missingRegion { regions := [] }
    { period := 120, min_rows := 40960, min_bytes := 33554432, gap := 500 }
    1 false 5 2 0 0 true 0 rfl

/-- C8: a write command batch applied through `handleWriteRaftCmdInner` to a
region id absent from the region map returns the distinct NotFound status,
throws no exception, leaves the store state unchanged, and triggers no
proactive flush. -/
theorem handleWriteRaftCmdInner_notFound (st : KVState) (cfg : KVConfig)
    (cmds : List WriteCmd) (region_id index term : Nat)
    (storage_exists : Bool) (now : Nat) (h : st.getRegion region_id = none) :
    handleWriteRaftCmdInner st cfg cmds region_id index term storage_exists now
      = { err? := none, res := EngineStoreApplyRes.NotFound, state := st
          proactive_persisted := [] } := by
  simp [handleWriteRaftCmdInner, h]

/-- C8 witness: the empty store at region id 1. -/
theorem handleWriteRaftCmdInner_notFound_w :
    handleWriteRaftCmdInner { regions := [] }
        { period := 120, min_rows := 40960, min_bytes := 33554432, gap := 500 }
        [{ cmd_type := WriteCmdType.Put, cf := ColumnFamilyType.Default,
           key := 150, val := 9 }] 1 6 3 true 0
      = { err? := none, res := EngineStoreApplyRes.NotFound
          state := { regions := [] }, proactive_persisted := [] } :=
  handleWriteRaftCmdInner_notFound { regions := [] }
    { period := 120, min_rows := 40960, min_bytes := 33554432, gap := 500 }
    [{ cmd_type := WriteCmdType.Put, cf := ColumnFamilyType.Default,
       key := 150, val := 9 }] 1 6 3 true 0 rfl

/-- C1 counterexample: a CompactLog admin command at index 10 delivered to
`handleUselessAdminRaftCmd` on a region whose applied index is 5 returns the
Persist signal but leaves the applied index at 5, not 10 — the handler does
not advance the region's applied index to the command's index as the claim
states. -/
theorem handleUselessAdmin_compactLog_cx :
    (handleUselessAdminRaftCmd { regions := [(1, mkRegion 1 5 0 100)] }
        AdminCmdType.CompactLog 1 10 4).res = EngineStoreApplyRes.Persist ∧
    ((handleUselessAdminRaftCmd { regions := [(1, mkRegion 1 5 0 100)] }
        AdminCmdType.CompactLog 1 10 4).state.getRegion 1).map
        Region.applied_index = some 5 ∧
    (5 : Nat) ≠ 10 := by
  decide

/-- C1 (amended): a CompactLog admin command delivered to
`handleUselessAdminRaftCmd` (to which `handleAdminRaftCmd` routes it) on an
existing region returns the Persist signal without flushing the storage
cache, without persisting, and with the region's applied index left
unchanged — the applied-index advance for CompactLog happens in the separate
try-flush FFI call, not in this handler. -/
theorem handleUselessAdmin_compactLog (st : KVState)
    (region_id index term : Nat) (r : Region)
    (h : st.getRegion region_id = some r) :
    (handleUselessAdminRaftCmd st AdminCmdType.CompactLog region_id index
        term).res = EngineStoreApplyRes.Persist ∧
    (handleUselessAdminRaftCmd st AdminCmdType.CompactLog region_id index
        term).flushed_storage = false ∧
    (handleUselessAdminRaftCmd st AdminCmdType.CompactLog region_id index
        term).persisted = [] ∧
    ((handleUselessAdminRaftCmd st AdminCmdType.CompactLog region_id index
        term).state.getRegion region_id).map Region.applied_index
      = some r.applied_index ∧
    handleAdminRaftCmdOnUseless st AdminCmdType.CompactLog region_id index term
      = some (handleUselessAdminRaftCmd st AdminCmdType.CompactLog region_id
          index term) := by
  simp only [KVState.getRegion] at h
  by_cases hv : r.raftstore_v2 <;>
    simp [handleUselessAdminRaftCmd, h, hv, handleAdminRaftCmdOnUseless,
      routesToUselessAdminCmd, KVState.getRegion, KVState.updateRegion,
      alookup_aupsert_self]

/-- C1 witness: the store holding region 1 at applied index 5, CompactLog at
index 10. -/
theorem handleUselessAdmin_compactLog_w :
    (handleUselessAdminRaftCmd { regions := [(1, mkRegion 1 5 0 100)] }
        AdminCmdType.CompactLog 1 10 4).res = EngineStoreApplyRes.Persist ∧
    (handleUselessAdminRaftCmd { regions := [(1, mkRegion 1 5 0 100)] }
        AdminCmdType.CompactLog 1 10 4).flushed_storage = false ∧
    (handleUselessAdminRaftCmd { regions := [(1, mkRegion 1 5 0 100)] }
        AdminCmdType.CompactLog 1 10 4).persisted = [] ∧
    ((handleUselessAdminRaftCmd { regions := [(1, mkRegion 1 5 0 100)] }
        AdminCmdType.CompactLog 1 10 4).state.getRegion 1).map
        Region.applied_index = some (mkRegion 1 5 0 100).applied_index ∧
    handleAdminRaftCmdOnUseless { regions := [(1, mkRegion 1 5 0 100)] }
        AdminCmdType.CompactLog 1 10 4
      = some (handleUselessAdminRaftCmd { regions := [(1, mkRegion 1 5 0 100)] }
          AdminCmdType.CompactLog 1 10 4) :=
  handleUselessAdmin_compactLog { regions := [(1, mkRegion 1 5 0 100)] }
    1 10 4 (mkRegion 1 5 0 100) rfl

theorem proactiveFlushOneRegion_persisted (cfg : KVConfig) (range : KeyRange)
    (id : Nat) (r : Region) (a now : Nat) :
    (proactiveFlushOneRegion cfg range id r a now).2.2.1 = [] ∨
    (proactiveFlushOneRegion cfg range id r a now).2.2.1 = [id] := by
  by_cases h1 : r.last_compact_log_time + cfg.period > now
  · simp [proactiveFlushOneRegion, h1]
  · by_cases h2 : r.last_compact_log_applied + 15 < a
    · simp [proactiveFlushOneRegion, h1, h2]
    · simp [proactiveFlushOneRegion, h1, h2]

theorem proactiveFlushStep_persisted_mem (cfg : KVConfig) (range : KeyRange)
    (now : Nat) (l : List (Nat × Region)) :
    ∀ (acc : KVState × List Nat × List KeyRange × List Nat) (x : Nat),
      x ∈ (l.foldl (proactiveFlushStep cfg range now) acc).2.1 →
      x ∈ acc.2.1 ∨ ∃ p, p ∈ l ∧ x = p.1 := by
  induction l with
  | nil =>
    intro acc x hx
    exact Or.inl hx
  | cons hd tl ih =>
    intro acc x hx
    rcases ih (proactiveFlushStep cfg range now acc hd) x hx with hmem | ⟨p, hp, hxp⟩
    · simp only [proactiveFlushStep] at hmem
      rcases List.mem_append.mp hmem with h1 | h2
      · exact Or.inl h1
      · rcases proactiveFlushOneRegion_persisted cfg range hd.1 hd.2
            hd.2.applied_index now with he | he
        · rw [he] at h2
          cases h2
        · rw [he] at h2
          rcases List.mem_singleton.mp h2 with rfl
          exact Or.inr ⟨hd, List.mem_cons_self hd tl, rfl⟩
    · exact Or.inr ⟨p, List.mem_cons_of_mem hd hp, hxp⟩

theorem findByRangeChecked_found_eq (regions : List (Nat × Region))
    (range : KeyRange) (rm : List (Nat × Region))
    (h : findByRangeChecked regions range = RangeCheckedResult.found rm) :
    rm = regions.filter (fun p => rangesOverlap p.2.range range) := by
  simp only [findByRangeChecked] at h
  split at h
  · cases h
    rfl
  · cases h

/-- C5: a proactive flush over a key range treats an overlap conflict
reported by `findByRangeChecked` as a fatal logical error naming the
offending regions, and persists no region in that case; in the non-conflict
case every region it persists is one found overlapping the flushed range. -/
theorem proactiveFlush_conflict_or_subset (st : KVState) (cfg : KVConfig)
    (range : KeyRange) (now : Nat) :
    (∀ ids, findByRangeChecked st.regions range
        = RangeCheckedResult.conflict ids →
      (proactiveFlushCacheAndRegion st cfg range true now).err?
          = some (ErrKind.overlappedRegions ids) ∧
      (proactiveFlushCacheAndRegion st cfg range true now).persisted = []) ∧
    (∀ (storage_exists : Bool) (x : Nat),
      x ∈ (proactiveFlushCacheAndRegion st cfg range storage_exists
        now).persisted →
      ∃ r, (x, r) ∈ st.regions ∧ rangesOverlap r.range range = true) := by
  constructor
  · intro ids hconf
    constructor <;> simp [proactiveFlushCacheAndRegion, hconf]
  · intro se x hx
    cases se with
    | false => simp [proactiveFlushCacheAndRegion] at hx
    | true =>
      cases hfind : findByRangeChecked st.regions range with
      | conflict ids =>
        rw [proactiveFlushCacheAndRegion] at hx
        simp only [hfind] at hx
        simp at hx
      | found rm =>
        rw [proactiveFlushCacheAndRegion] at hx
        simp only [hfind] at hx
        simp only [not_true_eq_false, if_false] at hx
        rcases proactiveFlushStep_persisted_mem cfg range now rm
            (st, [], [], []) x hx with h0 | ⟨p, hp, rfl⟩
        · cases h0
        · have hrm := findByRangeChecked_found_eq st.regions range rm hfind
          rw [hrm] at hp
          rcases List.mem_filter.mp hp with ⟨hmem, hover⟩
          exact ⟨p.2, by simpa using hmem, hover⟩

/-- C5 witness: the conflict case at two regions `[0,100)` and `[100,200)`
with range `[50,150)`, and the subset case at one region `[0,100)` with range
`[0,100)`. -/
theorem proactiveFlush_conflict_or_subset_w :
    ((proactiveFlushCacheAndRegion
        { regions := [(1, mkRegion 1 5 0 100), (2, mkRegion 2 5 100 200)] }
        { period := 120, min_rows := 40960, min_bytes := 33554432, gap := 500 }
        { fst := 50, snd := 150 } true 0).err?
      = some (ErrKind.overlappedRegions [1, 2]) ∧
    (proactiveFlushCacheAndRegion
        { regions := [(1, mkRegion 1 5 0 100), (2, mkRegion 2 5 100 200)] }
        { period := 120, min_rows := 40960, min_bytes := 33554432, gap := 500 }
        { fst := 50, snd := 150 } true 0).persisted = []) ∧
    (∃ r, ((1 : Nat), r) ∈
        ({ regions := [(1, mkRegion 1 5 0 100)] } : KVState).regions ∧
      rangesOverlap r.range { fst := 0, snd := 100 } = true) :=
  ⟨(proactiveFlush_conflict_or_subset
      { regions := [(1, mkRegion 1 5 0 100), (2, mkRegion 2 5 100 200)] }
      { period := 120, min_rows := 40960, min_bytes := 33554432, gap := 500 }
      { fst := 50, snd := 150 } 0).1 [1, 2] (by decide),
   (proactiveFlush_conflict_or_subset
      { regions := [(1, mkRegion 1 5 0 100)] }
      { period := 0, min_rows := 40960, min_bytes := 33554432, gap := 500 }
      { fst := 0, snd := 100 } 1).2 true 1 (by decide)⟩

/-- C3: in Fast-Add-Peer phase 2 the cancel handle is consulted at each of
the three defined checkpoints (before segment construction, after segment
construction, and after the raft-log copy); whenever the flag is observed set
at a reached checkpoint, the phase cleans the task's constructed data — no
`CheckpointIngestInfo` remains in memory or in durable storage — and returns
the `Canceled` status; the `Ok` status is only reachable when all three
observations were clear. -/
theorem fapWrite_cancel_checkpoints :
    (∀ (st : FAPStateM) (rid pid t0 : Nat) (ck : CheckpointSelectedM)
        (o2 o3 : Bool),
      ∃ st', FastAddPeerImplWrite st rid pid ck t0 true
            { before_build := true, after_build := o2, after_raft_log := o3 }
          = Except.ok (FastAddPeerStatus.Canceled, st') ∧
        alookup st'.ingest_map rid = none ∧
        ∀ p, alookup st'.durable_ingest (rid, p) = none) ∧
    (∀ (st : FAPStateM) (rid pid t0 : Nat) (ck : CheckpointSelectedM)
        (s0 : Nat) (segs : List Nat) (o3 : Bool),
      ∃ st', FastAddPeerImplWrite st rid pid
            { ck with segment_payload := s0 :: segs } t0 true
            { before_build := false, after_build := true, after_raft_log := o3 }
          = Except.ok (FastAddPeerStatus.Canceled, st') ∧
        alookup st'.ingest_map rid = none ∧
        ∀ p, alookup st'.durable_ingest (rid, p) = none) ∧
    (∀ (st : FAPStateM) (rid pid t0 : Nat) (ck : CheckpointSelectedM)
        (s0 : Nat) (segs : List Nat),
      ∃ st', FastAddPeerImplWrite st rid pid
            { ck with segment_payload := s0 :: segs } t0 true
            { before_build := false, after_build := false,
              after_raft_log := true }
          = Except.ok (FastAddPeerStatus.Canceled, st') ∧
        alookup st'.ingest_map rid = none ∧
        ∀ p, alookup st'.durable_ingest (rid, p) = none) ∧
    (∀ (st : FAPStateM) (rid pid t0 : Nat) (ck : CheckpointSelectedM)
        (se : Bool) (obs : WriteCancelObs) (st2 : FAPStateM),
      FastAddPeerImplWrite st rid pid ck t0 se obs
          = Except.ok (FastAddPeerStatus.Ok, st2) →
        obs.before_build = false ∧ obs.after_build = false ∧
          obs.after_raft_log = false) := by
  refine ⟨?_, ?_, ?_, ?_⟩
  · intro st rid pid t0 ck o2 o3
    refine ⟨cleanTask st rid, ?_, ?_, ?_⟩
    · simp [FastAddPeerImplWrite]
    · exact alookup_aerase_self st.ingest_map rid
    · intro p
      exact alookup_filter_pair_fst st.durable_ingest rid p
  · intro st rid pid t0 ck s0 segs o3
    refine ⟨cleanTask (insertCheckpointIngestInfo st rid pid
        ck.remote_store_id ck.region (s0 :: segs) t0) rid, ?_, ?_, ?_⟩
    · simp [FastAddPeerImplWrite, buildSegmentsFromCheckpointInfoModel]
    · exact alookup_aerase_self _ rid
    · intro p
      exact alookup_filter_pair_fst _ rid p
  · intro st rid pid t0 ck s0 segs
    refine ⟨cleanTask { insertCheckpointIngestInfo st rid pid
          ck.remote_store_id ck.region (s0 :: segs) t0 with
        raft_log := (insertCheckpointIngestInfo st rid pid ck.remote_store_id
            ck.region (s0 :: segs) t0).raft_log
          ++ ck.raft_logs.map (fun idx => (rid, idx)) } rid, ?_, ?_, ?_⟩
    · simp [FastAddPeerImplWrite, buildSegmentsFromCheckpointInfoModel]
    · exact alookup_aerase_self _ rid
    · intro p
      exact alookup_filter_pair_fst _ rid p
  · intro st rid pid t0 ck se obs st2 h
    obtain ⟨o1, o2, o3⟩ := obs
    cases se with
    | false => simp [FastAddPeerImplWrite] at h
    | true =>
      cases o1 with
      | true => simp [FastAddPeerImplWrite] at h
      | false =>
        by_cases hpl : ck.segment_payload = []
        · simp [FastAddPeerImplWrite, buildSegmentsFromCheckpointInfoModel,
            hpl] at h
        · cases o2 with
          | true =>
            simp [FastAddPeerImplWrite, buildSegmentsFromCheckpointInfoModel,
              hpl] at h
          | false =>
            cases o3 with
            | true =>
              simp [FastAddPeerImplWrite,
                buildSegmentsFromCheckpointInfoModel, hpl] at h
            | false => exact ⟨rfl, rfl, rfl⟩

/-- C3 witness: a concrete phase-2 run with payload `[7]` and no observed
cancellation returns `Ok`, so the final conjunct of the theorem applies with
all three observations clear. -/
theorem fapWrite_cancel_checkpoints_w :
    ({ before_build := false, after_build := false, after_raft_log := false }
        : WriteCancelObs).before_build = false ∧
    ({ before_build := false, after_build := false, after_raft_log := false }
        : WriteCancelObs).after_build = false ∧
    ({ before_build := false, after_build := false, after_raft_log := false }
        : WriteCancelObs).after_raft_log = false :=
  fapWrite_cancel_checkpoints.2.2.2
    { ingest_map := [], durable_ingest := [], raft_log := [] } 1 2 0
    (mkSelected [7]) true
    { before_build := false, after_build := false, after_raft_log := false }
    { ingest_map :=
        [(1,
          { region_id := 1
            peer_id := 2
            remote_store_id := 3
            region := mkRegion 1 5 0 100
            segments := [7]
            start_time := 0 })]
      durable_ingest :=
        [((1, 2),
          { region_id := 1
            peer_id := 2
            remote_store_id := 3
            region := mkRegion 1 5 0 100
            segments := [7]
            start_time := 0 })]
      raft_log := [(1, 6), (1, 7)] }
    rfl

/-- C4: running Fast-Add-Peer phase 2 on a checkpoint whose built segment set
is empty makes the phase throw, and the task wrapper `FastAddPeerImpl`
converts the exception into the `BadData` status; for such a checkpoint the
wrapper never returns `Ok` (the only other reachable status is `Canceled`). -/
theorem fapImpl_emptySegments_badData :
    (∀ (st : FAPStateM) (rid pid t0 rsid aps rgs : Nat) (reg : Region)
        (logs : List Nat) (o2 o3 se : Bool),
      FastAddPeerImpl st rid pid t0 false
          (SelectOutcome.selected (mkSelectedFull rsid reg aps rgs [] logs))
          se { before_build := false, after_build := o2, after_raft_log := o3 }
        = (FastAddPeerStatus.BadData, st)) ∧
    (∀ (st : FAPStateM) (rid pid t0 rsid aps rgs : Nat) (reg : Region)
        (logs : List Nat) (qc se : Bool) (obs : WriteCancelObs),
      (FastAddPeerImpl st rid pid t0 qc
          (SelectOutcome.selected (mkSelectedFull rsid reg aps rgs [] logs))
          se obs).1 = FastAddPeerStatus.BadData ∨
      (FastAddPeerImpl st rid pid t0 qc
          (SelectOutcome.selected (mkSelectedFull rsid reg aps rgs [] logs))
          se obs).1 = FastAddPeerStatus.Canceled) := by
  constructor
  · intro st rid pid t0 rsid aps rgs reg logs o2 o3 se
    cases se <;>
      simp [FastAddPeerImpl, FastAddPeerImplWrite,
        buildSegmentsFromCheckpointInfoModel, mkSelectedFull]
  · intro st rid pid t0 rsid aps rgs reg logs qc se obs
    obtain ⟨o1, o2, o3⟩ := obs
    cases qc with
    | true => right; simp [FastAddPeerImpl]
    | false =>
      cases se with
      | false => left; simp [FastAddPeerImpl, FastAddPeerImplWrite]
      | true =>
        cases o1 with
        | true => right; simp [FastAddPeerImpl, FastAddPeerImplWrite]
        | false =>
          left
          simp [FastAddPeerImpl, FastAddPeerImplWrite,
            buildSegmentsFromCheckpointInfoModel, mkSelectedFull]

/-- C6 counterexample: with the in-memory map holding the record of region 1
created for peer 7, looking the record up for peer 8 via
`getOrRestoreCheckpointIngestInfo` returns the record whose peer id is 7, not
the requested 8 — the lookup is keyed by region id alone, so the returned
record's peer id does not always equal the requested peer id. -/
theorem getOrRestoreIngestInfo_cx :
    ((getOrRestoreCheckpointIngestInfo
        { ingest_map := [(1, mkIngestInfo 1 7)], durable_ingest := []
          raft_log := [] } 1 8).1).map CheckpointIngestInfoM.peer_id
      = some 7 ∧ (7 : Nat) ≠ 8 := by
  decide

/-- C6 (amended): `getOrRestoreCheckpointIngestInfo` consults the in-memory
map keyed by region id alone and returns whatever record it holds there,
regardless of that record's peer id; only when no in-memory record exists
does it restore from durable storage, and that restore is identified by the
full `(region_id, peer_id)` pair. -/
theorem getOrRestoreIngestInfo_lookup (st : FAPStateM) (rid pid : Nat) :
    (∀ info, alookup st.ingest_map rid = some info →
      getOrRestoreCheckpointIngestInfo st rid pid = (some info, st)) ∧
    (alookup st.ingest_map rid = none →
      (getOrRestoreCheckpointIngestInfo st rid pid).1
        = alookup st.durable_ingest (rid, pid)) := by
  constructor
  · intro info h
    simp [getOrRestoreCheckpointIngestInfo, h]
  · intro h
    simp only [getOrRestoreCheckpointIngestInfo, h]
    cases hd : alookup st.durable_ingest (rid, pid) <;> simp [hd]

/-- C6 witness: a memory hit for region 1 and a memory miss restored from the
durable record of `(1, 8)`. -/
theorem getOrRestoreIngestInfo_lookup_w :
    getOrRestoreCheckpointIngestInfo
        { ingest_map := [(1, mkIngestInfo 1 7)], durable_ingest := []
          raft_log := [] } 1 8
      = (some (mkIngestInfo 1 7),
         { ingest_map := [(1, mkIngestInfo 1 7)], durable_ingest := []
           raft_log := [] }) ∧
    (getOrRestoreCheckpointIngestInfo
        { ingest_map := [], durable_ingest := [((1, 8), mkIngestInfo 1 8)]
          raft_log := [] } 1 8).1
      = alookup [((1, 8), mkIngestInfo 1 8)] (1, 8) :=
  ⟨(getOrRestoreIngestInfo_lookup
      { ingest_map := [(1, mkIngestInfo 1 7)], durable_ingest := []
        raft_log := [] } 1 8).1 (mkIngestInfo 1 7) rfl,
   (getOrRestoreIngestInfo_lookup
      { ingest_map := [], durable_ingest := [((1, 8), mkIngestInfo 1 8)]
        raft_log := [] } 1 8).2 rfl⟩

/-- C9: the polling entry point always hands the proxy one of the six defined
statuses; an exception raised inside the polling path is converted by its
catch-all into `OtherError`, and an exception inside the background task body
(here: the storage lookup throwing inside phase 2) is converted by
`FastAddPeerImpl` into `BadData` — no exception escapes either wrapper. -/
theorem fastAddPeer_status_totality (a : PollArgs) :
    (FastAddPeerPoll a = FastAddPeerStatus.Ok ∨
     FastAddPeerPoll a = FastAddPeerStatus.WaitForData ∨
     FastAddPeerPoll a = FastAddPeerStatus.NoSuitable ∨
     FastAddPeerPoll a = FastAddPeerStatus.Canceled ∨
     FastAddPeerPoll a = FastAddPeerStatus.BadData ∨
     FastAddPeerPoll a = FastAddPeerStatus.OtherError) ∧
    (∀ e, FastAddPeerPoll { a with poll_exn := some e }
      = FastAddPeerStatus.OtherError) ∧
    (∀ e, fapCatchToOtherError (Except.error e)
      = FastAddPeerStatus.OtherError) ∧
    (∀ (st : FAPStateM) (rid pid t0 : Nat) (sel : CheckpointSelectedM)
        (obs : WriteCancelObs),
      FastAddPeerImpl st rid pid t0 false (SelectOutcome.selected sel) false
        obs = (FastAddPeerStatus.BadData, st)) := by
  refine ⟨?_, ?_, ?_, ?_⟩
  · cases h : FastAddPeerPoll a <;> simp [h]
  · intro e
    rfl
  · intro e
    rfl
  · intro st rid pid t0 sel obs
    simp [FastAddPeerImpl, FastAddPeerImplWrite]

theorem foldl_max_le (l : List Nat) (b : Nat) :
    ∀ a, a ≤ b → (∀ m ∈ l, m ≤ b) → l.foldl max a ≤ b := by
  induction l with
  | nil =>
    intro a ha _
    simpa using ha
  | cons hd tl ih =>
    intro a ha h
    exact ih (max a hd) (max_le ha (h hd (List.mem_cons_self hd tl)))
      (fun m hm => h m (List.mem_cons_of_mem hd hm))

theorem latestUploadSeq_le (l : List Nat) (b : Nat) (h : ∀ m ∈ l, m ≤ b) :
    latestUploadSeq l ≤ b :=
  foldl_max_le l b 0 (Nat.zero_le b) h

theorem fetch_seq_ge (st : CatalogStateM) (manifests : List Nat)
    (store_id required_seq : Nat) :
    required_seq
        ≤ (getNewerCheckpointDataFetch st manifests store_id
            required_seq).1.1 ∧
    ((getNewerCheckpointDataFetch st manifests store_id
          required_seq).1.2.isSome = true →
      required_seq
        < (getNewerCheckpointDataFetch st manifests store_id
            required_seq).1.1) := by
  by_cases hm : manifests = []
  · simp [getNewerCheckpointDataFetch, hm]
  · by_cases hle : latestUploadSeq manifests ≤ required_seq
    · simp [getNewerCheckpointDataFetch, hm, hle]
    · rcases hc : alookup st.cache_map store_id with _ | ⟨seq, elem⟩
      · simp only [getNewerCheckpointDataFetch, hm, hle, hc]
        simp
        omega
      · by_cases hls : latestUploadSeq manifests ≤ seq
        · simp only [getNewerCheckpointDataFetch, hm, hle, hc]
          simp [hls]
          omega
        · simp only [getNewerCheckpointDataFetch, hm, hle, hc]
          simp [hls]
          omega

theorem fetch_stale_none (st : CatalogStateM) (manifests : List Nat)
    (store_id required_seq : Nat)
    (hall : ∀ m ∈ manifests, m ≤ required_seq) :
    getNewerCheckpointDataFetch st manifests store_id required_seq
      = ((required_seq, none), st) := by
  by_cases hm : manifests = []
  · simp [getNewerCheckpointDataFetch, hm]
  · have hle : latestUploadSeq manifests ≤ required_seq :=
      latestUploadSeq_le manifests required_seq hall
    simp [getNewerCheckpointDataFetch, hm, hle]

theorem fetch_cache_monotone (st : CatalogStateM) (manifests : List Nat)
    (store_id required_seq : Nat) (sid : Nat) (p : Nat × CacheElementM)
    (hp : alookup st.cache_map sid = some p) :
    alookup (getNewerCheckpointDataFetch st manifests store_id
        required_seq).2.cache_map sid = some p ∨
    ∃ q : Nat × CacheElementM,
      alookup (getNewerCheckpointDataFetch st manifests store_id
          required_seq).2.cache_map sid = some q ∧ p.1 < q.1 := by
  by_cases hm : manifests = []
  · left
    simpa [getNewerCheckpointDataFetch, hm] using hp
  · by_cases hle : latestUploadSeq manifests ≤ required_seq
    · left
      simpa [getNewerCheckpointDataFetch, hm, hle] using hp
    · rcases hc : alookup st.cache_map store_id with _ | ⟨seq, elem⟩
      · by_cases hsid : sid = store_id
        · rw [hsid, hc] at hp
          cases hp
        · left
          have hsid' := alookup_aupsert_ne st.cache_map store_id sid
            ((latestUploadSeq manifests,
              ({ manifest_key := latestUploadSeq manifests
                 dir_seq := st.temp_ps_dir_sequence } : CacheElementM)))
            hsid
          simp [getNewerCheckpointDataFetch, hm, hle, hc, hsid', hp]
      · by_cases hls : latestUploadSeq manifests ≤ seq
        · left
          simpa [getNewerCheckpointDataFetch, hm, hle, hc, hls] using hp
        · by_cases hsid : sid = store_id
          · right
            subst hsid
            have hpe : p = (seq, elem) := by
              rw [hp] at hc
              exact Option.some.inj hc
            refine ⟨(latestUploadSeq manifests,
              { manifest_key := latestUploadSeq manifests
                dir_seq := st.temp_ps_dir_sequence }), ?_, ?_⟩
            · simp [getNewerCheckpointDataFetch, hm, hle, hc, hls,
                alookup_aupsert_self]
            · rw [hpe]
              exact (show seq < latestUploadSeq manifests by omega)
          · left
            have hsid' := alookup_aupsert_ne st.cache_map store_id sid
              ((latestUploadSeq manifests,
                ({ manifest_key := latestUploadSeq manifests
                   dir_seq := st.temp_ps_dir_sequence } : CacheElementM)))
              hsid
            simp [getNewerCheckpointDataFetch, hm, hle, hc, hls, hsid', hp]

/-- C7: `getNewerCheckpointData` returns a sequence at least `required_seq`;
it returns a non-null checkpoint-data holder only when the returned sequence
is strictly greater than `required_seq`; when neither the cache nor the
store's manifest set holds anything strictly newer than `required_seq` it
returns `(required_seq, none)`; and a cached catalog entry is only ever
replaced by an entry with a strictly greater upload sequence. -/
theorem getNewerCheckpointData_contract (st : CatalogStateM)
    (manifests : List Nat) (store_id required_seq : Nat) :
    (required_seq
        ≤ (getNewerCheckpointData st manifests store_id required_seq).1.1) ∧
    ((getNewerCheckpointData st manifests store_id
          required_seq).1.2.isSome = true →
      required_seq
        < (getNewerCheckpointData st manifests store_id required_seq).1.1) ∧
    ((∀ m ∈ manifests, m ≤ required_seq) →
      (∀ p : Nat × CacheElementM, alookup st.cache_map store_id = some p →
        p.1 ≤ required_seq) →
      (getNewerCheckpointData st manifests store_id required_seq).1
        = (required_seq, none)) ∧
    (∀ (sid : Nat) (p : Nat × CacheElementM),
      alookup st.cache_map sid = some p →
      alookup (getNewerCheckpointData st manifests store_id
          required_seq).2.cache_map sid = some p ∨
      ∃ q : Nat × CacheElementM,
        alookup (getNewerCheckpointData st manifests store_id
            required_seq).2.cache_map sid = some q ∧ p.1 < q.1) := by
  rcases hc0 : alookup st.cache_map store_id with _ | ⟨seq, elem⟩
  · simp only [getNewerCheckpointData, hc0]
    refine ⟨(fetch_seq_ge st manifests store_id required_seq).1,
      (fetch_seq_ge st manifests store_id required_seq).2, ?_, ?_⟩
    · intro hall _
      rw [fetch_stale_none st manifests store_id required_seq hall]
    · intro sid p hp
      exact fetch_cache_monotone st manifests store_id required_seq sid p hp
  · by_cases hreq : required_seq < seq
    · simp only [getNewerCheckpointData, hc0, if_pos hreq]
      refine ⟨Nat.le_of_lt hreq, fun _ => hreq, ?_, ?_⟩
      · intro _ hcache
        have := hcache (seq, elem) rfl
        simp only at this
        omega
      · intro sid p hp
        exact Or.inl hp
    · simp only [getNewerCheckpointData, hc0, if_neg hreq]
      refine ⟨(fetch_seq_ge st manifests store_id required_seq).1,
        (fetch_seq_ge st manifests store_id required_seq).2, ?_, ?_⟩
      · intro hall _
        rw [fetch_stale_none st manifests store_id required_seq hall]
      · intro sid p hp
        exact fetch_cache_monotone st manifests store_id required_seq sid p hp

/-- C7 witness: a fresh catalog downloading manifest 7 (newer than 5), a
catalog whose cached entry 4 and manifest 3 are both stale against 5, and a
cached entry 4 superseded by manifest 9. -/
theorem getNewerCheckpointData_contract_w :
    (5 : Nat)
        < (getNewerCheckpointData { cache_map := [], temp_ps_dir_sequence := 0 }
            [7] 2 5).1.1 ∧
    (getNewerCheckpointData
        { cache_map := [(2, (4, { manifest_key := 4, dir_seq := 0 }))]
          temp_ps_dir_sequence := 1 } [3] 2 5).1 = (5, none) ∧
    (alookup (getNewerCheckpointData
        { cache_map := [(2, (4, { manifest_key := 4, dir_seq := 0 }))]
          temp_ps_dir_sequence := 1 } [9] 2 5).2.cache_map 2
      = some (4, { manifest_key := 4, dir_seq := 0 }) ∨
    ∃ q : Nat × CacheElementM,
      alookup (getNewerCheckpointData
          { cache_map := [(2, (4, { manifest_key := 4, dir_seq := 0 }))]
            temp_ps_dir_sequence := 1 } [9] 2 5).2.cache_map 2
        = some q ∧ (4, ({ manifest_key := 4, dir_seq := 0 }
          : CacheElementM)).1 < q.1) :=
  ⟨(getNewerCheckpointData_contract
      { cache_map := [], temp_ps_dir_sequence := 0 } [7] 2 5).2.1 rfl,
   (getNewerCheckpointData_contract
      { cache_map := [(2, (4, { manifest_key := 4, dir_seq := 0 }))]
        temp_ps_dir_sequence := 1 } [3] 2 5).2.2.1 (by decide)
     (by
       intro p hp
       have h4 : ((4 : Nat), ({ manifest_key := 4, dir_seq := 0 }
           : CacheElementM)) = p := by
         simpa [alookup] using hp
       rw [← h4]
       decide),
   (getNewerCheckpointData_contract
      { cache_map := [(2, (4, { manifest_key := 4, dir_seq := 0 }))]
        temp_ps_dir_sequence := 1 } [9] 2 5).2.2.2 2
     (4, { manifest_key := 4, dir_seq := 0 }) rfl⟩
